import Mathlib

/-!
Shallow embedding of the homie-python device agent (`src/homie/main.py`)
together with the collaborator functions its announcement sequence consumes.

Python values that flow through the configuration layer are modelled by
`ConfigVal`; machine state of the `Homie` object by `HomieState`; every call
the session core makes into the MQTT transport by an `MqttAction`.  Methods
that in the source mutate `self` are translated to functions returning the
new state together with the list of transport actions they performed.

Modules of this repository that are not under `src/` (`homie/helpers.py`,
`homie/node.py`, `homie/networkinformation.py`) are modelled from the spec;
each such definition carries a doc comment saying so.
-/

/-- A Python value as it can appear in the configuration layer: a string
(all environment-variable values are strings), an integer, a boolean, or
`None`. -/
inductive ConfigVal where
  | str (s : String)
  | int (n : Int)
  | bool (b : Bool)
  | null
deriving DecidableEq, Repr

/-- Python truthiness (`if val:`) for the modelled values: `None`, `""`,
`0` and `False` are falsy, everything else truthy. -/
def pyTruthy : ConfigVal → Bool
  | ConfigVal.str s => s ≠ ""
  | ConfigVal.int n => n ≠ 0
  | ConfigVal.bool b => b
  | ConfigVal.null => false

/-- Python `str()` of a modelled value. -/
def pyStr : ConfigVal → String
  | ConfigVal.str s => s
  | ConfigVal.int n => toString n
  | ConfigVal.bool b => cond b "True" "False"
  | ConfigVal.null => "None"

/-- `DEFAULT_PREFS` from `main.py` (lines 19-31): preference name (also the
environment-variable suffix and the configuration-file key the code uses),
the attribute key `setattr` writes to, and the built-in default value, in
the source's insertion order. -/
def DEFAULT_PREFS : List (String × String × ConfigVal) :=
  [ ("CA_CERTS", "ca_certs", ConfigVal.null)
  , ("DEVICE_ID", "deviceId", ConfigVal.str "xxxxxxxx")
  , ("DEVICE_NAME", "deviceName", ConfigVal.str "xxxxxxxx")
  , ("HOST", "host", ConfigVal.null)
  , ("KEEPALIVE", "keepalive", ConfigVal.int 60)
  , ("PASSWORD", "password", ConfigVal.null)
  , ("PORT", "port", ConfigVal.int 1883)
  , ("QOS", "qos", ConfigVal.int 1)
  , ("SUBSCRIBE_ALL", "subscribe_all", ConfigVal.bool false)
  , ("TOPIC", "baseTopic", ConfigVal.str "devices")
  , ("USERNAME", "username", ConfigVal.null)
  ]

/-- One preference resolution as `_initAttrs` performs it (lines 115-123):
`getenv("HOMIE_" + pref, config.get(pref, default))` — environment override
first (environment values are strings), then the configuration file looked
up under the preference name `pref` itself, then the built-in default. -/
def resolvePref (env : String → Option String) (config : String → Option ConfigVal)
    (pref : String) (dflt : ConfigVal) : ConfigVal :=
  match env ("HOMIE_" ++ pref) with
  | some v => ConfigVal.str v
  | Option.none =>
    match config pref with
    | some v => v
    | Option.none => dflt

/-- The attribute assignments performed by `Homie._initAttrs` (lines
112-128): for every entry of `DEFAULT_PREFS`, the attribute named by its
`key` receives the resolved value. -/
def initAttrs (env : String → Option String) (config : String → Option ConfigVal) :
    List (String × ConfigVal) :=
  DEFAULT_PREFS.map (fun p => (p.2.1, resolvePref env config p.1 p.2.2))

/-- Look an attribute up by its key in the assignment list. -/
def attrLookup (attrs : List (String × ConfigVal)) (key : String) : Option ConfigVal :=
  (attrs.find? (fun p => p.1 == key)).map (fun p => p.2)

/-- The layered lookup exactly as the spec words it (for comparison with the
code's `resolvePref`): environment override when present, otherwise the value
stored in the configuration file under the option's key, otherwise the
built-in default. -/
def specLayeredLookup (env : String → Option String) (config : String → Option ConfigVal)
    (pref : String) (key : String) (dflt : ConfigVal) : ConfigVal :=
  match env ("HOMIE_" ++ pref) with
  | some v => ConfigVal.str v
  | Option.none =>
    match config key with
    | some v => v
    | Option.none => dflt

/-- A character allowed inside a device identifier other than the hyphen:
ASCII lowercase letter or digit. -/
def isIdChar (c : Char) : Bool := c.isLower || c.isDigit

/-- Acceptor for the tail `(-?[a-z0-9])*` of the identifier format rule. -/
def isIdTail : List Char → Bool
  | [] => true
  | ['-'] => false
  | '-' :: d :: rest => isIdChar d && isIdTail rest
  | c :: rest => isIdChar c && isIdTail rest

/-- Modelled from the spec: `isIdFormat` lives in `homie/helpers.py`, which is
not under `src/`.  Spec section 4.1: true iff the string is non-empty and
matches `^[a-z0-9](-?[a-z0-9])*$` (lowercase alphanumerics, single internal
hyphens, no leading/trailing hyphen, no double hyphen). -/
def isIdFormat (s : String) : Bool :=
  match s.toList with
  | [] => false
  | c :: rest => isIdChar c && isIdTail rest

/-- `isIdFormat` applied to an arbitrary Python value, as the `deviceId`
property setter does: a non-string value never matches the format rule. -/
def isIdFormatVal : ConfigVal → Bool
  | ConfigVal.str s => isIdFormat s
  | _ => false

/-- The `deviceId` property setter (lines 430-438): keep the value when it
satisfies the format rule, otherwise substitute a generated identifier (the
pseudo-random generator `generateDeviceId` from `homie/helpers.py` is
modelled by the parameter `genId`).  Returns the stored identifier and the
number of generator invocations (0 or 1). -/
def deviceIdSetter (v : ConfigVal) (genId : String) : String × Nat :=
  match v with
  | ConfigVal.str s => if isIdFormat s then (s, 0) else (genId, 1)
  | _ => (genId, 1)

/-- The part of the constructed object the claims inspect. -/
structure InitResult where
  deviceId : String
  attrs : List (String × ConfigVal)
  mqtt_topic : String
  clientId : String
deriving DecidableEq, Repr

/-- `Homie.__init__` (lines 56-100).  The attribute pre-initialization
`self.deviceId = None` (line 62) goes through the validating property setter
and therefore invokes the generator once; `_initAttrs` then overwrites the
attribute through the same setter.  After the attributes are resolved the
constructor checks `if not self.host: raise ValueError("No host specified.")`
(lines 75-76); only past that check does it compute `mqtt_topic` and create
the transport client (`HomieMqtt`, line 98).  Returns the construction
outcome together with the total number of generator invocations. -/
def Homie.init (env : String → Option String) (config : String → Option ConfigVal)
    (genId : String) : Except String InitResult × Nat :=
  let pre := deviceIdSetter ConfigVal.null genId
  let attrs := initAttrs env config
  let devSet := deviceIdSetter ((attrLookup attrs "deviceId").getD ConfigVal.null) genId
  let g := pre.2 + devSet.2
  let host := (attrLookup attrs "host").getD ConfigVal.null
  if pyTruthy host then
    let bt := pyStr ((attrLookup attrs "baseTopic").getD ConfigVal.null)
    ( Except.ok
        { deviceId := devSet.1
        , attrs := attrs
        , mqtt_topic := bt ++ "/" ++ devSet.1
        , clientId := "Homie-" ++ devSet.1 }
    , g )
  else
    (Except.error "No host specified.", g)

/-- One call from the session core into the MQTT transport. -/
inductive MqttAction where
  | publish (topic payload : String) (retain : Bool) (qos : Nat)
  | subscribeMany (pairs : List (String × Nat))
  | subscribeOne (topic : String) (qos : Nat)
  | unsubscribe (topic : String)
  | callbackAdd (topic : String)
deriving DecidableEq, Repr

/-- A registered node: `nodeId`, `nodeType`, and its declared properties
(name, last-known value) in declaration order. -/
structure HNode where
  nodeId : String
  nodeType : String
  props : List (String × String)
deriving DecidableEq, Repr

/-- The mutable state of a `Homie` object that the session claims inspect.
`qos` is kept as the natural number the source obtains via `int(self.qos)`. -/
structure HomieState where
  baseTopic : String
  deviceId : String
  deviceName : String
  qos : Nat
  subscribe_all : Bool
  fwname : Option String
  fwversion : Option String
  nodes : List HNode
  subscriptions : List (String × Nat)
  subscribe_all_forced : Bool
  statsInterval : Nat
  setupCalled : Bool
  mqtt_connected : Bool
  mqtt_subscribed : Bool
deriving DecidableEq, Repr

/-- `self.mqtt_topic` (lines 87-90): `"/".join([baseTopic, deviceId])`. -/
def mqttTopic (s : HomieState) : String :=
  s.baseTopic ++ "/" ++ s.deviceId

/-- Values the announcement sequence obtains from consumed collaborators:
local IP and MAC (from `homie/networkinformation.py`, not under `src/`,
spec section 6: best-effort string providers), the computed uptime seconds,
and the lines of `/proc/net/wireless` (`Option.none` when opening the file
fails). -/
structure NetEnv where
  localIp : String
  mac : String
  uptime : Int
  wireless : Option (List String)
deriving DecidableEq, Repr

/-- `Homie.publish` (lines 301-322): when connected, exactly one transport
publish with the given retain flag and with qos defaulting to `int(self.qos)`;
when not connected, no transport call at all (the value is dropped and a
warning logged).  The source method mutates no session state. -/
def Homie.publish (s : HomieState) (topic payload : String)
    (retain : Bool := true) (qos : Option Nat := Option.none) : List MqttAction :=
  if s.mqtt_connected then
    [MqttAction.publish topic payload retain (qos.getD s.qos)]
  else
    []

/-- `Homie.setNodeProperty` (lines 242-248): publish the value to
`mqtt_topic/nodeId/prop`, with retain defaulting to true.  The method
mutates no session state, so the state is returned unchanged. -/
def Homie.setNodeProperty (s : HomieState) (nodeId prop val : String)
    (retain : Bool := true) : HomieState × List MqttAction :=
  (s, Homie.publish s (mqttTopic s ++ "/" ++ nodeId ++ "/" ++ prop) val retain)

/-- Modelled from the spec: `HomieNode.sendProperties` lives in
`homie/node.py`, which is not under `src/`.  Spec sections 3 and 4.5: on
announcement each node re-publishes all of its declared property values,
in declaration order, each retained, to the property topic — the same
topic and retain default as `setNodeProperty`. -/
def HomieNode.sendProperties (s : HomieState) (n : HNode) : List MqttAction :=
  n.props.flatMap (fun pv => (Homie.setNodeProperty s n.nodeId pv.1 pv.2).2)

/-- `Homie.publishNodes` (lines 324-333): publish the comma-joined node ids
to `$nodes`, then let every node send its properties, in registration
order. -/
def publishNodes (s : HomieState) : List MqttAction :=
  Homie.publish s (mqttTopic s ++ "/$nodes")
      (String.intercalate "," (s.nodes.map (fun n => n.nodeId))) true
    ++ s.nodes.flatMap (fun n => HomieNode.sendProperties s n)

/-- `Homie.publishLocalipAndMac` (lines 335-347). -/
def publishLocalipAndMac (s : HomieState) (env : NetEnv) : List MqttAction :=
  Homie.publish s (mqttTopic s ++ "/$localip") env.localIp true
    ++ Homie.publish s (mqttTopic s ++ "/$mac") env.mac true

/-- `Homie.publishStatsInterval` (lines 349-354). -/
def publishStatsInterval (s : HomieState) : List MqttAction :=
  Homie.publish s (mqttTopic s ++ "/$stats/interval") (toString s.statsInterval) true

/-- `Homie.publishUptime` (lines 356-361). -/
def publishUptime (s : HomieState) (env : NetEnv) : List MqttAction :=
  Homie.publish s (mqttTopic s ++ "/$stats/uptime") (toString env.uptime) true

/-- `Homie.publishImplementation` (lines 363-368). -/
def publishImplementation (s : HomieState) : List MqttAction :=
  Homie.publish s (mqttTopic s ++ "/$implementation") "homie-python" true

/-- `HOMIE_VERSION` (line 18). -/
def HOMIE_VERSION : String := "2.0.1"

/-- `Homie.publishHomieVersion` (lines 370-375). -/
def publishHomieVersion (s : HomieState) : List MqttAction :=
  Homie.publish s (mqttTopic s ++ "/$homie") HOMIE_VERSION true

/-- `Homie.publishFwname` (lines 377-383): published only when
`self.fwname` is truthy; the payload is `str(self.fwname)`. -/
def publishFwname (s : HomieState) : List MqttAction :=
  match s.fwname with
  | some f => if f ≠ "" then Homie.publish s (mqttTopic s ++ "/$fw/name") f true else []
  | Option.none => []

/-- `Homie.publishFwversion` (lines 385-391). -/
def publishFwversion (s : HomieState) : List MqttAction :=
  match s.fwversion with
  | some f => if f ≠ "" then Homie.publish s (mqttTopic s ++ "/$fw/version") f true else []
  | Option.none => []

/-- Python whitespace for `str.split()` with no argument. -/
def isPySpace (c : Char) : Bool :=
  c = ' ' || c = '\t' || c = '\n' || c = '\r'

/-- Splitter for Python `str.split()` with no argument: accumulate the
current word (reversed) and emit it at each whitespace run boundary. -/
def splitWsAux : List Char → List Char → List String
  | [], acc => if acc = [] then [] else [String.mk acc.reverse]
  | c :: rest, acc =>
    if isPySpace c then
      if acc = [] then splitWsAux rest []
      else String.mk acc.reverse :: splitWsAux rest []
    else splitWsAux rest (c :: acc)

/-- Python `line.split()`: split on whitespace runs, dropping empty pieces. -/
def pysplit (s : String) : List String :=
  splitWsAux s.toList []

/-- Digits of a numeral read as a natural number. -/
def digitsVal (cs : List Char) : Nat :=
  cs.foldl (fun a c => a * 10 + (c.toNat - Char.toNat '0')) 0

/-- Split a character list at every dot. -/
def splitDotAux : List Char → List Char → List (List Char)
  | [], acc => [acc.reverse]
  | c :: rest, acc =>
    if c = '.' then acc.reverse :: splitDotAux rest []
    else splitDotAux rest (c :: acc)

/-- Python `int(float(s))` on plain decimal literals — an optional sign,
then digits with at most one decimal point (not both parts empty); the
result truncates toward zero, so it is the signed integer part.  Any other
string raises `ValueError` in the source, modelled by `Option.none`
(exponent, `inf` and `nan` forms never occur in the modelled input). -/
def pyFloatInt (s : String) : Option Int :=
  let cs := s.toList
  let sign : Int := match cs with
    | '-' :: _ => -1
    | _ => 1
  let body := match cs with
    | '-' :: rest => rest
    | '+' :: rest => rest
    | _ => cs
  match splitDotAux body [] with
  | [ip] =>
    if ip ≠ [] && ip.all Char.isDigit then
      some (sign * (digitsVal ip : Int))
    else Option.none
  | [ip, fp] =>
    if (ip ≠ [] || fp ≠ []) && ip.all Char.isDigit && fp.all Char.isDigit then
      some (sign * (digitsVal ip : Int))
    else Option.none
  | _ => Option.none

/-- The payload computation of `Homie.publishSignal` (lines 393-412): the
default 100 when opening `/proc/net/wireless` fails (`wireless =
Option.none`) or when the file has fewer than three lines; otherwise
`int(float(data[2]))` where `data` is the whitespace-split third line —
`data[2]` missing raises `IndexError` and a non-numeric field raises
`ValueError`, both uncaught, modelled by `Except.error`. -/
def signalPayload (wireless : Option (List String)) : Except Unit Int :=
  match wireless with
  | Option.none => Except.ok 100
  | some lines =>
    match lines.get? 2 with
    | Option.none => Except.ok 100
    | some line =>
      match (pysplit line).get? 2 with
      | Option.none => Except.error ()
      | some field =>
        match pyFloatInt field with
        | Option.none => Except.error ()
        | some v => Except.ok v

/-- `Homie.publishSignal` (lines 393-416): the publish that follows the
payload computation, or the propagated exception. -/
def publishSignal (s : HomieState) (wireless : Option (List String)) :
    Except Unit (List MqttAction) :=
  (signalPayload wireless).map
    (fun v => Homie.publish s (mqttTopic s ++ "/$stats/signal") (toString v) true)

/-- `Homie._subscribe` (lines 167-181): with a non-empty recorded list, one
batched subscribe of all recorded pairs, then — iff the wildcard was forced
earlier and "subscribe all" is not the configured mode — an unsubscribe of
the wildcard `mqtt_topic + "/#"`; with an empty list, one subscribe of the
wildcard at `int(self.qos)` and the forced flag is set. -/
def subscribeSeq (s : HomieState) : HomieState × List MqttAction :=
  if s.subscriptions ≠ [] then
    ( s
    , [MqttAction.subscribeMany s.subscriptions]
        ++ (if s.subscribe_all_forced && !s.subscribe_all then
              [MqttAction.unsubscribe (mqttTopic s ++ "/#")]
            else []) )
  else
    ( { s with subscribe_all_forced := true }
    , [MqttAction.subscribeOne (mqttTopic s ++ "/#") s.qos] )

/-- The chain of publish calls `Homie._connected` performs after the
subscription sequence (lines 190-205), in source order.  The boolean is
false when `publishSignal` raised, in which case the trailing
`$implementation` publish never happens and only the actions performed up
to the raise are returned. -/
def announceActs (s2 : HomieState) (env : NetEnv) : List MqttAction × Bool :=
  let before :=
    Homie.publish s2 (mqttTopic s2 ++ "/$online") "true" true
      ++ Homie.publish s2 (mqttTopic s2 ++ "/$name") s2.deviceName true
      ++ publishHomieVersion s2
      ++ publishFwname s2
      ++ publishFwversion s2
      ++ publishNodes s2
      ++ publishLocalipAndMac s2 env
      ++ publishStatsInterval s2
      ++ publishUptime s2 env
  match publishSignal s2 env.wireless with
  | Except.error _ => (before, false)
  | Except.ok sigActs => (before ++ sigActs ++ publishImplementation s2, true)

/-- `Homie._connected` (lines 183-205): set `connected`, run the
subscription sequence when not already subscribed, then announce. -/
def connectedStep (s : HomieState) (env : NetEnv) :
    HomieState × List MqttAction × Bool :=
  let s1 : HomieState := { s with mqtt_connected := true }
  let sub := if !s1.mqtt_subscribed then subscribeSeq s1 else (s1, [])
  let ann := announceActs sub.1 env
  (sub.1, sub.2 ++ ann.1, ann.2)

/-- `Homie._disconnected` (lines 216-218): clear both flags. -/
def disconnectedStep (s : HomieState) : HomieState :=
  { s with mqtt_connected := false, mqtt_subscribed := false }

/-- `Homie.subscribe` (lines 250-274): raises when called after `setup()`
(`_checkBeforeSetup`, modelled by `Except.error`); otherwise records the
`.../set` subscription pair when "subscribe all" is not configured,
re-issues the subscription sequence when already connected, and registers
the message callback. -/
def subscribeCall (s : HomieState) (nodeId attr : String) (q : Option Nat) :
    Except Unit (HomieState × List MqttAction) :=
  if s.setupCalled then Except.error () else
  let qos := q.getD s.qos
  let subscription := mqttTopic s ++ "/" ++ nodeId ++ "/" ++ attr ++ "/set"
  let s1 :=
    if !s.subscribe_all then
      { s with subscriptions := s.subscriptions ++ [(subscription, qos)] }
    else s
  let r := if s1.mqtt_connected then subscribeSeq s1 else (s1, [])
  Except.ok (r.1, r.2 ++ [MqttAction.callbackAdd subscription])

/-- `Homie.subscribeProperty` (lines 276-299): as `subscribe`, but the topic
has no `/set` suffix. -/
def subscribePropertyCall (s : HomieState) (nodeId attr : String) (q : Option Nat) :
    Except Unit (HomieState × List MqttAction) :=
  if s.setupCalled then Except.error () else
  let qos := q.getD s.qos
  let subscription := mqttTopic s ++ "/" ++ nodeId ++ "/" ++ attr
  let s1 :=
    if !s.subscribe_all then
      { s with subscriptions := s.subscriptions ++ [(subscription, qos)] }
    else s
  let r := if s1.mqtt_connected then subscribeSeq s1 else (s1, [])
  Except.ok (r.1, r.2 ++ [MqttAction.callbackAdd subscription])

/-- Outcome of one `self.mqtt.connect(...)` attempt. -/
inductive ConnectOutcome where
  | ok
  | envError
  | otherError
deriving DecidableEq, Repr

/-- What the connect portion of `Homie._initialize` did. -/
structure ConnectTrace where
  attempts : Nat
  waits : List Nat
  failed : Bool
deriving DecidableEq, Repr

/-- The connect-with-retry portion of `Homie._initialize` (lines 157-163):
the first attempt's `EnvironmentError` is caught, a fixed 10-second sleep
follows, and the connect is retried exactly once with no handler around it,
so a failure of the retry propagates to the caller of `setup`; any
non-environment error of the first attempt propagates immediately. -/
def initConnect (outcome : Nat → ConnectOutcome) : ConnectTrace :=
  match outcome 0 with
  | ConnectOutcome.ok => { attempts := 1, waits := [], failed := false }
  | ConnectOutcome.envError =>
    match outcome 1 with
    | ConnectOutcome.ok => { attempts := 2, waits := [10], failed := false }
    | _ => { attempts := 2, waits := [10], failed := true }
  | ConnectOutcome.otherError => { attempts := 1, waits := [], failed := true }

/-- The announcement publish sequence exactly as the spec words it (section
4.5), for comparison with the trace of `connectedStep`: each entry retained,
in this exact order — `$online=true`, `$name`, `$homie`, `$fw/name` (only if
firmware name was set), `$fw/version` (only if set), the `$nodes` payload,
every registered node's declared property values (node order = registration
order, within a node = declaration order), then `$localip`, `$mac`,
`$stats/interval`, `$stats/uptime`, `$stats/signal`, `$implementation`. -/
def expectedAnnouncePubs (s : HomieState) (env : NetEnv) (sig : Int) : List MqttAction :=
  [ MqttAction.publish (mqttTopic s ++ "/$online") "true" true s.qos
  , MqttAction.publish (mqttTopic s ++ "/$name") s.deviceName true s.qos
  , MqttAction.publish (mqttTopic s ++ "/$homie") HOMIE_VERSION true s.qos ]
  ++ (match s.fwname with
      | some f => if f ≠ "" then
          [MqttAction.publish (mqttTopic s ++ "/$fw/name") f true s.qos] else []
      | Option.none => [])
  ++ (match s.fwversion with
      | some f => if f ≠ "" then
          [MqttAction.publish (mqttTopic s ++ "/$fw/version") f true s.qos] else []
      | Option.none => [])
  ++ [ MqttAction.publish (mqttTopic s ++ "/$nodes")
         (String.intercalate "," (s.nodes.map (fun n => n.nodeId))) true s.qos ]
  ++ s.nodes.flatMap (fun n =>
       n.props.map (fun pv =>
         MqttAction.publish (mqttTopic s ++ "/" ++ n.nodeId ++ "/" ++ pv.1) pv.2 true s.qos))
  ++ [ MqttAction.publish (mqttTopic s ++ "/$localip") env.localIp true s.qos
     , MqttAction.publish (mqttTopic s ++ "/$mac") env.mac true s.qos
     , MqttAction.publish (mqttTopic s ++ "/$stats/interval") (toString s.statsInterval) true s.qos
     , MqttAction.publish (mqttTopic s ++ "/$stats/uptime") (toString env.uptime) true s.qos
     , MqttAction.publish (mqttTopic s ++ "/$stats/signal") (toString sig) true s.qos
     , MqttAction.publish (mqttTopic s ++ "/$implementation") "homie-python" true s.qos ]

/-- The publish actions of a trace, in order. -/
def publishesOf (l : List MqttAction) : List MqttAction :=
  l.filter (fun a => match a with
    | MqttAction.publish _ _ _ _ => true
    | _ => false)

/-- Whether a trace sends any individual-topic subscription entry (a batched
subscribe with a non-empty pair list) to the transport. -/
def sendsIndividualEntry (l : List MqttAction) : Bool :=
  l.any (fun a => match a with
    | MqttAction.subscribeMany (_ :: _) => true
    | _ => false)

/-- A small concrete session state used by witnesses and counterexamples. -/
def sampleState : HomieState :=
  { baseTopic := "devices"
  , deviceId := "device1"
  , deviceName := "demo"
  , qos := 1
  , subscribe_all := false
  , fwname := Option.none
  , fwversion := Option.none
  , nodes := []
  , subscriptions := []
  , subscribe_all_forced := false
  , statsInterval := 60
  , setupCalled := false
  , mqtt_connected := false
  , mqtt_subscribed := false }

/-- A concrete collaborator environment: opening `/proc/net/wireless`
fails, so the signal payload is the default 100. -/
def sampleEnv : NetEnv :=
  { localIp := "192.168.0.2"
  , mac := "de:ad:be:ef:00:01"
  , uptime := 5
  , wireless := Option.none }

/-- The state `_subscribe` leaves behind: unchanged when the recorded list
is non-empty, otherwise only the forced-wildcard flag is set. -/
theorem subscribeSeq_fst (t : HomieState) :
    (subscribeSeq t).1 = t ∨
      (subscribeSeq t).1 = { t with subscribe_all_forced := true } := by
  unfold subscribeSeq
  by_cases h : t.subscriptions = []
  · simp [h]
  · simp [h]

/-- The subscription sequence performs no publish calls. -/
theorem publishesOf_subscribeSeq (t : HomieState) :
    publishesOf (subscribeSeq t).2 = [] := by
  unfold subscribeSeq
  by_cases h : t.subscriptions = []
  · simp [h, publishesOf]
  · by_cases h2 : t.subscribe_all_forced && !t.subscribe_all
    · simp [h, h2, publishesOf]
    · simp [h, h2, publishesOf]

/-- The state after a connect event: the connected flag is set, and the
subscription sequence may additionally have set the forced-wildcard flag. -/
theorem connectedStep_fst_eq (s : HomieState) (env : NetEnv) :
    (connectedStep s env).1 = { s with mqtt_connected := true } ∨
    (connectedStep s env).1 =
      { s with mqtt_connected := true, subscribe_all_forced := true } := by
  by_cases h : s.mqtt_subscribed
  · left
    simp [connectedStep, h]
  · have h1 := subscribeSeq_fst { s with mqtt_connected := true }
    simpa [connectedStep, h] using h1

/-- C2: while `connected` is false, any `publish` — and hence any
`setNodeProperty` — performs zero transport publish invocations and leaves
the session state unchanged (the value is dropped, not queued); after a
connect event the same `setNodeProperty` call performs exactly one
transport publish to `baseTopic/deviceId/nodeId/prop` with retain
defaulting to true. -/
theorem setNodeProperty_at_most_once (s : HomieState)
    (nodeId prop val topic payload : String) (retain : Bool) (q : Option Nat)
    (env : NetEnv) (hdisc : s.mqtt_connected = false) :
    Homie.publish s topic payload retain q = [] ∧
    Homie.setNodeProperty s nodeId prop val = (s, []) ∧
    Homie.setNodeProperty (connectedStep s env).1 nodeId prop val =
      ((connectedStep s env).1,
        [MqttAction.publish
          (s.baseTopic ++ "/" ++ s.deviceId ++ "/" ++ nodeId ++ "/" ++ prop)
          val true s.qos]) := by
  refine ⟨by simp [Homie.publish, hdisc], by simp [Homie.setNodeProperty, Homie.publish, hdisc], ?_⟩
  rcases connectedStep_fst_eq s env with h1 | h1 <;>
    rw [h1] <;> simp [Homie.setNodeProperty, Homie.publish, mqttTopic]

/-- Witness for C2 on a concrete disconnected state and its connected
successor. -/
theorem setNodeProperty_at_most_once_witness :
    Homie.publish sampleState "devices/device1/switch/on" "on" true Option.none = [] ∧
    Homie.setNodeProperty sampleState "switch" "on" "true" = (sampleState, []) ∧
    Homie.setNodeProperty (connectedStep sampleState sampleEnv).1 "switch" "on" "true" =
      ((connectedStep sampleState sampleEnv).1,
        [MqttAction.publish
          ("devices" ++ "/" ++ "device1" ++ "/" ++ "switch" ++ "/" ++ "on")
          "true" true 1]) :=
  setNodeProperty_at_most_once sampleState "switch" "on" "true"
    "devices/device1/switch/on" "on" true Option.none sampleEnv rfl

/-- C3: with a non-empty recorded subscription list, the subscription
sequence issues exactly one batched subscribe of all recorded pairs,
followed by an unsubscribe of the wildcard iff the forced-wildcard flag is
set and "subscribe all" is not the configured mode; with an empty list it
issues exactly one subscribe of the wildcard `deviceRoot + "/#"` and sets
the forced-wildcard flag. -/
theorem subscribe_sequence_spec (s : HomieState) :
    (s.subscriptions ≠ [] →
      (subscribeSeq s).2 =
        [MqttAction.subscribeMany s.subscriptions]
          ++ (if s.subscribe_all_forced = true ∧ s.subscribe_all = false then
                [MqttAction.unsubscribe (mqttTopic s ++ "/#")]
              else []) ∧
      (subscribeSeq s).1 = s) ∧
    (s.subscriptions = [] →
      (subscribeSeq s).2 = [MqttAction.subscribeOne (mqttTopic s ++ "/#") s.qos] ∧
      (subscribeSeq s).1 = { s with subscribe_all_forced := true }) := by
  constructor
  · intro h
    refine ⟨?_, by simp [subscribeSeq, h]⟩
    by_cases h1 : s.subscribe_all_forced <;> by_cases h2 : s.subscribe_all <;>
      simp [subscribeSeq, h, h1, h2]
  · intro h
    simp [subscribeSeq, h]

/-- A concrete state with one recorded subscription and the forced flag
set. -/
def c3State : HomieState :=
  { sampleState with
      subscriptions := [("devices/device1/switch/on/set", 1)]
    , subscribe_all_forced := true }

/-- Witness for C3 on both branches: a recorded subscription with the
forced flag set, and the empty-list wildcard case. -/
theorem subscribe_sequence_spec_witness :
    ((subscribeSeq c3State).2 =
      [MqttAction.subscribeMany c3State.subscriptions]
        ++ (if c3State.subscribe_all_forced = true ∧ c3State.subscribe_all = false then
              [MqttAction.unsubscribe (mqttTopic c3State ++ "/#")]
            else []) ∧
      (subscribeSeq c3State).1 = c3State) ∧
    ((subscribeSeq sampleState).2 =
      [MqttAction.subscribeOne (mqttTopic sampleState ++ "/#") sampleState.qos] ∧
      (subscribeSeq sampleState).1 = { sampleState with subscribe_all_forced := true }) :=
  ⟨(subscribe_sequence_spec c3State).1 (by decide),
   (subscribe_sequence_spec sampleState).2 rfl⟩

/-- C6: when the first connect attempt fails with an environment-level
error, `_initialize` waits the fixed 10-second backoff and retries exactly
once (two attempts, never a third); the retry's failure — and only its
failure — propagates to the caller of `setup`. -/
theorem connect_retry_once (outcome : Nat → ConnectOutcome)
    (h : outcome 0 = ConnectOutcome.envError) :
    (initConnect outcome).attempts = 2 ∧
    (initConnect outcome).waits = [10] ∧
    ((initConnect outcome).failed = true ↔ outcome 1 ≠ ConnectOutcome.ok) := by
  unfold initConnect
  rw [h]
  cases h1 : outcome 1 <;> simp [h1]

/-- A connect oracle whose first attempt fails with an environment error
and whose retry succeeds. -/
def c6Outcome : Nat → ConnectOutcome :=
  fun n => if n = 0 then ConnectOutcome.envError else ConnectOutcome.ok

/-- Witness for C6 at a concrete connect oracle. -/
theorem connect_retry_once_witness :
    (initConnect c6Outcome).attempts = 2 ∧
    (initConnect c6Outcome).waits = [10] ∧
    ((initConnect c6Outcome).failed = true ↔ c6Outcome 1 ≠ ConnectOutcome.ok) :=
  connect_retry_once c6Outcome rfl

/-- C7: construction with a missing (`None`) or empty resolved host fails
with the configuration error before any session activity — the error
result carries no topic root and no transport client, which are only
computed past the host check; with a non-empty host string this error is
not raised. -/
theorem missing_host_config_error (env : String → Option String)
    (config : String → Option ConfigVal) (g : String) :
    (((attrLookup (initAttrs env config) "host").getD ConfigVal.null = ConfigVal.null ∨
        (attrLookup (initAttrs env config) "host").getD ConfigVal.null = ConfigVal.str "") →
      (Homie.init env config g).1 = Except.error "No host specified.") ∧
    (∀ hs : String,
      (attrLookup (initAttrs env config) "host").getD ConfigVal.null = ConfigVal.str hs →
      hs ≠ "" →
      ∃ r : InitResult, (Homie.init env config g).1 = Except.ok r) := by
  constructor
  · intro h
    rcases h with h | h <;> simp [Homie.init, h, pyTruthy]
  · intro hs hh hne
    have hcond : pyTruthy ((attrLookup (initAttrs env config) "host").getD ConfigVal.null) = true := by
      rw [hh]
      simpa [pyTruthy] using hne
    cases hinit : (Homie.init env config g).1 with
    | ok r => exact ⟨r, rfl⟩
    | error e =>
      exfalso
      simp [Homie.init, hcond] at hinit

/-- The environment of an unconfigured run: no variable is set. -/
def emptyEnv : String → Option String := fun _ => Option.none

/-- An absent configuration file: `loadConfigFile` returns the empty
dictionary. -/
def emptyConfig : String → Option ConfigVal := fun _ => Option.none

/-- An environment that only sets `HOMIE_HOST`. -/
def hostEnv : String → Option String :=
  fun k => if k = "HOMIE_HOST" then some "localhost" else Option.none

/-- Witness for C7: an unconfigured run fails the host check and a run with
`HOMIE_HOST` set does not. -/
theorem missing_host_config_error_witness :
    (Homie.init emptyEnv emptyConfig "a0b1c2d3").1 = Except.error "No host specified." ∧
    ∃ r : InitResult, (Homie.init hostEnv emptyConfig "a0b1c2d3").1 = Except.ok r :=
  ⟨(missing_host_config_error emptyEnv emptyConfig "a0b1c2d3").1 (Or.inl rfl),
   (missing_host_config_error hostEnv emptyConfig "a0b1c2d3").2 "localhost" rfl (by decide)⟩

/-- Flattening one publish per element is a map. -/
theorem flatMap_singleton_eq_map {α β : Type} (f : α → β) (l : List α) :
    l.flatMap (fun x => [f x]) = l.map f := by
  induction l with
  | nil => rfl
  | cons a t ih => simp [ih]

/-- On a connected state, the announcement chain of `_connected` produces
exactly the publish sequence the spec prescribes. -/
theorem announceActs_eq_expected (t : HomieState) (env : NetEnv) (sig : Int)
    (hc : t.mqtt_connected = true) (hsig : signalPayload env.wireless = Except.ok sig) :
    (announceActs t env).1 = expectedAnnouncePubs t env sig := by
  have hps : publishSignal t env.wireless =
      Except.ok (Homie.publish t (mqttTopic t ++ "/$stats/signal") (toString sig) true) := by
    simp [publishSignal, hsig, Except.map]
  unfold announceActs
  rw [hps]
  simp [Homie.publish, publishHomieVersion, publishFwname, publishFwversion,
    publishNodes, HomieNode.sendProperties, Homie.setNodeProperty,
    publishLocalipAndMac, publishStatsInterval, publishUptime,
    publishImplementation, hc, expectedAnnouncePubs, flatMap_singleton_eq_map]

/-- Setting the connected flag does not change the expected announcement. -/
theorem expected_set_connected (s : HomieState) (env : NetEnv) (sig : Int) :
    expectedAnnouncePubs { s with mqtt_connected := true } env sig =
      expectedAnnouncePubs s env sig := by
  cases s
  rfl

/-- Setting the connected and forced-wildcard flags does not change the
expected announcement. -/
theorem expected_set_connected_forced (s : HomieState) (env : NetEnv) (sig : Int) :
    expectedAnnouncePubs { s with mqtt_connected := true, subscribe_all_forced := true } env sig =
      expectedAnnouncePubs s env sig := by
  cases s
  rfl

/-- Every publish in the spec-side announcement carries retain = true. -/
theorem mem_expected_retain (s : HomieState) (env : NetEnv) (sig : Int)
    (t p : String) (r : Bool) (q : Nat)
    (hmem : MqttAction.publish t p r q ∈ expectedAnnouncePubs s env sig) : r = true := by
  rcases hf : s.fwname with _ | f <;> rcases hv : s.fwversion with _ | v <;>
    simp [expectedAnnouncePubs, hf, hv] at hmem <;>
    aesop

/-- C1: in the trace of a connect event the subscription sequence comes
first (and only when not already subscribed), followed by exactly the
spec's announcement publishes in the spec's order — `$online="true"`,
`$name`, `$homie`, `$fw/name` and `$fw/version` when set, the `$nodes`
payload, every registered node's declared property values (nodes in
registration order, properties in declaration order), then `$localip`,
`$mac`, `$stats/interval`, `$stats/uptime`, `$stats/signal`,
`$implementation` — and every publish in the trace carries retain = true.
Subscription establishment therefore precedes the first `$online`
publish, which precedes `$nodes`, which precedes all property
announcements. -/
theorem connected_announcement_order (s : HomieState) (env : NetEnv) (sig : Int)
    (hsig : signalPayload env.wireless = Except.ok sig) :
    (connectedStep s env).2.1 =
      (if s.mqtt_subscribed = true then []
       else (subscribeSeq { s with mqtt_connected := true }).2)
        ++ expectedAnnouncePubs s env sig ∧
    (∀ t p r q, MqttAction.publish t p r q ∈ (connectedStep s env).2.1 → r = true) := by
  have hsplit : (connectedStep s env).2.1 =
      (if s.mqtt_subscribed = true then []
       else (subscribeSeq { s with mqtt_connected := true }).2)
        ++ (announceActs (connectedStep s env).1 env).1 := by
    by_cases h : s.mqtt_subscribed = true
    · simp [connectedStep, h]
    · simp [connectedStep, h]
  have hmain : (connectedStep s env).2.1 =
      (if s.mqtt_subscribed = true then []
       else (subscribeSeq { s with mqtt_connected := true }).2)
        ++ expectedAnnouncePubs s env sig := by
    rw [hsplit]
    congr 1
    rcases connectedStep_fst_eq s env with h1 | h1 <;> rw [h1]
    · rw [announceActs_eq_expected _ env sig rfl hsig, expected_set_connected]
    · rw [announceActs_eq_expected _ env sig rfl hsig, expected_set_connected_forced]
  refine ⟨hmain, ?_⟩
  intro t p r q hmem
  rw [hmain] at hmem
  rcases List.mem_append.mp hmem with hmem | hmem
  · by_cases hsub : s.mqtt_subscribed = true
    · rw [if_pos hsub] at hmem
      simp at hmem
    · rw [if_neg hsub] at hmem
      have hin : MqttAction.publish t p r q ∈
          publishesOf (subscribeSeq { s with mqtt_connected := true }).2 :=
        List.mem_filter.mpr ⟨hmem, rfl⟩
      rw [publishesOf_subscribeSeq] at hin
      simp at hin
  · exact mem_expected_retain s env sig t p r q hmem

/-- A concrete session with firmware set and one node with one declared
property. -/
def c1State : HomieState :=
  { sampleState with
      fwname := some "relay-switch"
    , fwversion := some "1.0.0"
    , nodes := [ { nodeId := "switch", nodeType := "switch", props := [("on", "false")] } ] }

/-- Witness for C1: the connect trace of a concrete session equals the
spec-side subscribe-then-announce sequence. -/
theorem connected_announcement_order_witness :
    (connectedStep c1State sampleEnv).2.1 =
      (if c1State.mqtt_subscribed = true then []
       else (subscribeSeq { c1State with mqtt_connected := true }).2)
        ++ expectedAnnouncePubs c1State sampleEnv 100 :=
  (connected_announcement_order c1State sampleEnv 100 rfl).1

/-- Publishes of a connect trace are the publishes of its announcement
chain: the subscription sequence contributes none. -/
theorem publishesOf_connectedStep (s : HomieState) (env : NetEnv) :
    publishesOf (connectedStep s env).2.1 =
      publishesOf (announceActs (connectedStep s env).1 env).1 := by
  have hsub := publishesOf_subscribeSeq { s with mqtt_connected := true }
  by_cases h : s.mqtt_subscribed = true
  · simp [connectedStep, h]
  · have hs : s.mqtt_subscribed = false := by simpa using h
    rw [hs] at hsub
    simp only [connectedStep, hs]
    simp only [publishesOf, List.filter_append] at hsub ⊢
    simp [hsub]

/-- The announcement chain reads only the identity, registry, firmware,
stats and connected fields of the state. -/
theorem announceActs_congr (a b : HomieState) (env : NetEnv)
    (hbt : a.baseTopic = b.baseTopic) (hd : a.deviceId = b.deviceId)
    (hn : a.deviceName = b.deviceName) (hq : a.qos = b.qos)
    (hf : a.fwname = b.fwname) (hv : a.fwversion = b.fwversion)
    (hns : a.nodes = b.nodes) (hsi : a.statsInterval = b.statsInterval)
    (hc : a.mqtt_connected = b.mqtt_connected) :
    announceActs a env = announceActs b env := by
  cases a
  cases b
  dsimp only at hbt hd hn hq hf hv hns hsi hc
  subst hbt hd hn hq hf hv hns hsi hc
  rfl

/-- C5: a connect event, a disconnect (clearing the connected and
subscribed flags), and a second connect produce structurally identical
announcement sequences — the same publishes with the same topics, order,
payloads and retain flags. -/
theorem reconnect_announcement_idempotent (s : HomieState) (env : NetEnv) :
    publishesOf (connectedStep (disconnectedStep (connectedStep s env).1) env).2.1 =
      publishesOf (connectedStep s env).2.1 := by
  rw [publishesOf_connectedStep, publishesOf_connectedStep]
  have hcongr :
      announceActs (connectedStep (disconnectedStep (connectedStep s env).1) env).1 env =
        announceActs (connectedStep s env).1 env := by
    rcases connectedStep_fst_eq s env with h1 | h1 <;>
      rcases connectedStep_fst_eq (disconnectedStep (connectedStep s env).1) env with h2 | h2 <;>
      apply announceActs_congr <;> rw [h2, h1] <;> simp [disconnectedStep]
  rw [hcongr]

/-- C4 (amended): once the forced-wildcard flag is set, a subscribe call
made before setup on a connected session still records the desired
(topic, qos) pair — and, far from withholding it, immediately re-issues
the subscription sequence, which sends the recorded individual entries to
the transport as one batched subscribe and issues the compensating
wildcard unsubscribe (when "subscribe all" is not the configured mode). -/
theorem forced_wildcard_replacement (s : HomieState) (nodeId attr : String)
    (q : Option Nat) (hsetup : s.setupCalled = false)
    (hconn : s.mqtt_connected = true) (hforced : s.subscribe_all_forced = true)
    (hmode : s.subscribe_all = false) :
    subscribeCall s nodeId attr q =
      Except.ok
        ( { s with subscriptions :=
              s.subscriptions
                ++ [(mqttTopic s ++ "/" ++ nodeId ++ "/" ++ attr ++ "/set", q.getD s.qos)] }
        , [ MqttAction.subscribeMany
              (s.subscriptions
                ++ [(mqttTopic s ++ "/" ++ nodeId ++ "/" ++ attr ++ "/set", q.getD s.qos)])
          , MqttAction.unsubscribe (mqttTopic s ++ "/#")
          , MqttAction.callbackAdd (mqttTopic s ++ "/" ++ nodeId ++ "/" ++ attr ++ "/set") ] ) := by
  simp [subscribeCall, subscribeSeq, mqttTopic, hsetup, hconn, hforced, hmode]

/-- The state reached by simulating a connect event on a fresh session
with no recorded subscriptions: the wildcard was subscribed and the
forced-wildcard flag is set. -/
def c4State : HomieState := (connectedStep sampleState sampleEnv).1

/-- Counterexample to C4 as stated: in the reachable state `c4State` the
forced-wildcard flag is set, yet a subsequent subscribe call does send an
individual-topic subscription entry to the transport (a batched subscribe
with a non-empty pair list). -/
theorem forced_wildcard_invariant_cex :
    c4State.subscribe_all_forced = true ∧
    subscribeCall c4State "switch" "on" Option.none =
      Except.ok
        ( { c4State with subscriptions := [("devices/device1/switch/on/set", 1)] }
        , [ MqttAction.subscribeMany [("devices/device1/switch/on/set", 1)]
          , MqttAction.unsubscribe "devices/device1/#"
          , MqttAction.callbackAdd "devices/device1/switch/on/set" ] ) ∧
    sendsIndividualEntry
      [ MqttAction.subscribeMany [("devices/device1/switch/on/set", 1)]
      , MqttAction.unsubscribe "devices/device1/#"
      , MqttAction.callbackAdd "devices/device1/switch/on/set" ] = true :=
  ⟨rfl, rfl, rfl⟩

/-- Witness for the amended C4 at the concrete post-connect state. -/
theorem forced_wildcard_replacement_witness :
    subscribeCall c4State "light" "level" Option.none =
      Except.ok
        ( { c4State with subscriptions :=
              c4State.subscriptions
                ++ [(mqttTopic c4State ++ "/" ++ "light" ++ "/" ++ "level" ++ "/set",
                     (Option.none : Option Nat).getD c4State.qos)] }
        , [ MqttAction.subscribeMany
              (c4State.subscriptions
                ++ [(mqttTopic c4State ++ "/" ++ "light" ++ "/" ++ "level" ++ "/set",
                     (Option.none : Option Nat).getD c4State.qos)])
          , MqttAction.unsubscribe (mqttTopic c4State ++ "/#")
          , MqttAction.callbackAdd
              (mqttTopic c4State ++ "/" ++ "light" ++ "/" ++ "level" ++ "/set") ] ) :=
  forced_wildcard_replacement c4State "light" "level" Option.none rfl rfl rfl rfl

/-- A configuration file that stores a base topic under the option key
`baseTopic` (the key the claim names), not under the preference name
`TOPIC` the code actually reads. -/
def c8Config : String → Option ConfigVal :=
  fun k => if k = "baseTopic" then some (ConfigVal.str "custom") else Option.none

/-- Counterexample to C8 as stated: with no environment override and a
configuration file carrying `baseTopic = "custom"`, the code resolves the
option to the built-in default `"devices"` — the file is consulted under
the uppercase preference name `TOPIC`, not under the option key
`baseTopic` that the spec-worded lookup reads. -/
theorem layered_lookup_cex :
    attrLookup (initAttrs emptyEnv c8Config) "baseTopic" = some (ConfigVal.str "devices") ∧
    specLayeredLookup emptyEnv c8Config "TOPIC" "baseTopic" (ConfigVal.str "devices") =
      ConfigVal.str "custom" ∧
    (ConfigVal.str "devices" : ConfigVal) ≠ ConfigVal.str "custom" :=
  ⟨rfl, rfl, by decide⟩

/-- C8 (amended): for each recognized option the resolved value is the
environment override `HOMIE_<PREF>` when present, otherwise the value
stored in the configuration file under the uppercase preference name
(`CA_CERTS`, `DEVICE_ID`, `DEVICE_NAME`, `HOST`, `KEEPALIVE`, `PASSWORD`,
`PORT`, `QOS`, `SUBSCRIBE_ALL`, `TOPIC` for `baseTopic`, `USERNAME`)
when present, otherwise the built-in default (keepalive 60, port 1883,
qos 1, subscribe_all false, baseTopic "devices", host none). -/
theorem attrs_layered_by_pref_name (env : String → Option String)
    (config : String → Option ConfigVal) :
    attrLookup (initAttrs env config) "ca_certs" =
      some (specLayeredLookup env config "CA_CERTS" "CA_CERTS" ConfigVal.null) ∧
    attrLookup (initAttrs env config) "deviceId" =
      some (specLayeredLookup env config "DEVICE_ID" "DEVICE_ID" (ConfigVal.str "xxxxxxxx")) ∧
    attrLookup (initAttrs env config) "deviceName" =
      some (specLayeredLookup env config "DEVICE_NAME" "DEVICE_NAME" (ConfigVal.str "xxxxxxxx")) ∧
    attrLookup (initAttrs env config) "host" =
      some (specLayeredLookup env config "HOST" "HOST" ConfigVal.null) ∧
    attrLookup (initAttrs env config) "keepalive" =
      some (specLayeredLookup env config "KEEPALIVE" "KEEPALIVE" (ConfigVal.int 60)) ∧
    attrLookup (initAttrs env config) "password" =
      some (specLayeredLookup env config "PASSWORD" "PASSWORD" ConfigVal.null) ∧
    attrLookup (initAttrs env config) "port" =
      some (specLayeredLookup env config "PORT" "PORT" (ConfigVal.int 1883)) ∧
    attrLookup (initAttrs env config) "qos" =
      some (specLayeredLookup env config "QOS" "QOS" (ConfigVal.int 1)) ∧
    attrLookup (initAttrs env config) "subscribe_all" =
      some (specLayeredLookup env config "SUBSCRIBE_ALL" "SUBSCRIBE_ALL" (ConfigVal.bool false)) ∧
    attrLookup (initAttrs env config) "baseTopic" =
      some (specLayeredLookup env config "TOPIC" "TOPIC" (ConfigVal.str "devices")) ∧
    attrLookup (initAttrs env config) "username" =
      some (specLayeredLookup env config "USERNAME" "USERNAME" ConfigVal.null) :=
  ⟨rfl, rfl, rfl, rfl, rfl, rfl, rfl, rfl, rfl, rfl, rfl⟩

/-- Counterexample to C9 as stated: a third line with fewer than three
whitespace-separated fields makes the signal-strength read surface an
error (an uncaught `IndexError`), and a parseable negative third field is
published as is, outside 0..100. -/
theorem signal_strength_cex :
    signalPayload (some ["Inter-| sta-|  Quality", "face | tus | link", "wlan0: 0000"]) =
      Except.error () ∧
    signalPayload (some ["h1", "h2", "wlan0: 0000 -7. -63."]) = Except.ok (-7) ∧
    ¬((0 : Int) ≤ -7) :=
  ⟨rfl, rfl, by decide⟩

/-- C9 (amended): the signal payload is the default 100 when the wireless
file cannot be opened or has fewer than three lines; otherwise it is the
truncated numeric parse of the third whitespace-separated field of the
third line, an operation that surfaces an error when that field is
missing or not numeric, and whose value is not confined to 0..100.  Only
unavailability of the file is recovered silently. -/
theorem signal_payload_spec :
    signalPayload Option.none = Except.ok 100 ∧
    (∀ lines : List String, lines.length < 3 → signalPayload (some lines) = Except.ok 100) ∧
    (∀ (lines : List String) (line : String), lines.get? 2 = some line →
      signalPayload (some lines) =
        (match (pysplit line).get? 2 with
         | some field =>
           (match pyFloatInt field with
            | some v => Except.ok v
            | Option.none => Except.error ())
         | Option.none => Except.error ())) := by
  refine ⟨rfl, ?_, ?_⟩
  · intro lines hlen
    have h2 : lines[2]? = Option.none := by
      rw [List.getElem?_eq_none_iff]
      omega
    simp [signalPayload, h2]
  · intro lines line h
    have h2 : lines[2]? = some line := by
      rwa [List.get?_eq_getElem?] at h
    cases hsp : (pysplit line)[2]? with
    | none => simp [signalPayload, h2, List.get?_eq_getElem?, hsp]
    | some field =>
      cases hpf : pyFloatInt field with
      | none => simp [signalPayload, h2, List.get?_eq_getElem?, hsp, hpf]
      | some v => simp [signalPayload, h2, List.get?_eq_getElem?, hsp, hpf]

/-- Witness for the amended C9: a one-line file falls back to 100, and a
well-formed three-line file parses its third field. -/
theorem signal_payload_spec_witness :
    signalPayload (some ["only one line"]) = Except.ok 100 ∧
    signalPayload (some ["a", "b", "wifi0 100 54. 200."]) =
      (match (pysplit "wifi0 100 54. 200.").get? 2 with
       | some field =>
         (match pyFloatInt field with
          | some v => Except.ok v
          | Option.none => Except.error ())
       | Option.none => Except.error ()) :=
  ⟨signal_payload_spec.2.1 ["only one line"] (by decide),
   signal_payload_spec.2.2 ["a", "b", "wifi0 100 54. 200."] "wifi0 100 54. 200." rfl⟩

/-- Counterexample to C10 as stated: on an unconfigured construction (only
the required host provided) the random-generator fallback IS invoked —
exactly once, by the attribute pre-initialization `self.deviceId = None`
of line 62, whose result is then overwritten — even though the resolved
deviceId is the default `"xxxxxxxx"`. -/
theorem default_deviceId_generator_cex :
    (Homie.init hostEnv emptyConfig "q7r8s9t0").2 = 1 ∧
    (1 : Nat) ≠ 0 ∧
    (Homie.init hostEnv emptyConfig "q7r8s9t0").1 =
      Except.ok
        { deviceId := "xxxxxxxx"
        , attrs := initAttrs hostEnv emptyConfig
        , mqtt_topic := "devices/xxxxxxxx"
        , clientId := "Homie-xxxxxxxx" } :=
  ⟨rfl, by decide, rfl⟩

/-- C10 (amended): when neither the environment nor the configuration
file provides a deviceId, the resolved deviceId is the built-in default
`"xxxxxxxx"`, which satisfies the identifier format rule, so the setter
keeps it and the generator's output never reaches the resolved identifier:
every unconfigured device ends with this same fixed id, and deviceName
likewise defaults to `"xxxxxxxx"`.  The generator is nonetheless invoked
exactly once per construction, by the `None` pre-initialization of the
deviceId attribute. -/
theorem default_deviceId_spec (env : String → Option String)
    (config : String → Option ConfigVal) (g : String)
    (hid : env "HOMIE_DEVICE_ID" = Option.none)
    (hidc : config "DEVICE_ID" = Option.none)
    (hnm : env "HOMIE_DEVICE_NAME" = Option.none)
    (hnmc : config "DEVICE_NAME" = Option.none) :
    attrLookup (initAttrs env config) "deviceId" = some (ConfigVal.str "xxxxxxxx") ∧
    attrLookup (initAttrs env config) "deviceName" = some (ConfigVal.str "xxxxxxxx") ∧
    isIdFormat "xxxxxxxx" = true ∧
    deviceIdSetter (ConfigVal.str "xxxxxxxx") g = ("xxxxxxxx", 0) ∧
    (Homie.init env config g).2 = 1 ∧
    (∀ r : InitResult, (Homie.init env config g).1 = Except.ok r →
      r.deviceId = "xxxxxxxx") := by
  have hfmt : isIdFormat "xxxxxxxx" = true := by decide
  have hres : resolvePref env config "DEVICE_ID" (ConfigVal.str "xxxxxxxx") =
      ConfigVal.str "xxxxxxxx" := by
    unfold resolvePref
    rw [show ("HOMIE_" ++ "DEVICE_ID" : String) = "HOMIE_DEVICE_ID" from rfl, hid]
    simp [hidc]
  have hresn : resolvePref env config "DEVICE_NAME" (ConfigVal.str "xxxxxxxx") =
      ConfigVal.str "xxxxxxxx" := by
    unfold resolvePref
    rw [show ("HOMIE_" ++ "DEVICE_NAME" : String) = "HOMIE_DEVICE_NAME" from rfl, hnm]
    simp [hnmc]
  have h1 : attrLookup (initAttrs env config) "deviceId" =
      some (resolvePref env config "DEVICE_ID" (ConfigVal.str "xxxxxxxx")) := rfl
  have h2 : attrLookup (initAttrs env config) "deviceName" =
      some (resolvePref env config "DEVICE_NAME" (ConfigVal.str "xxxxxxxx")) := rfl
  have hset : deviceIdSetter
      ((attrLookup (initAttrs env config) "deviceId").getD ConfigVal.null) g =
      ("xxxxxxxx", 0) := by
    rw [h1, hres]
    simp [deviceIdSetter, hfmt]
  refine ⟨by rw [h1, hres], by rw [h2, hresn], hfmt, by simp [deviceIdSetter, hfmt], ?_, ?_⟩
  · unfold Homie.init
    dsimp only
    rw [hset]
    split <;> rfl
  · intro r hr
    revert hr
    unfold Homie.init
    dsimp only
    rw [hset]
    split
    · intro hr
      injection hr with hr
      rw [← hr]
    · intro hr
      exact absurd hr (by simp)

/-- Witness for the amended C10 at a concrete unconfigured run. -/
theorem default_deviceId_spec_witness :
    attrLookup (initAttrs hostEnv emptyConfig) "deviceId" = some (ConfigVal.str "xxxxxxxx") ∧
    attrLookup (initAttrs hostEnv emptyConfig) "deviceName" = some (ConfigVal.str "xxxxxxxx") ∧
    isIdFormat "xxxxxxxx" = true ∧
    deviceIdSetter (ConfigVal.str "xxxxxxxx") "m4n5p6q7" = ("xxxxxxxx", 0) ∧
    (Homie.init hostEnv emptyConfig "m4n5p6q7").2 = 1 ∧
    (∀ r : InitResult, (Homie.init hostEnv emptyConfig "m4n5p6q7").1 = Except.ok r →
      r.deviceId = "xxxxxxxx") :=
  default_deviceId_spec hostEnv emptyConfig "m4n5p6q7" rfl rfl rfl rfl
